import Mathlib

/-!
Verification of the tyractorsaur actor runtime core against its specification.

The definitions below are a shallow embedding of `src/system/actor_system.rs`
(the `ActorSystem` entry points: `spawn`, `stop`, `shutdown`, `await_shutdown`,
`add_pool`) together with the data it manipulates.  Components whose source is
not part of the core under verification (`SystemState`'s accessors, the
`Mailbox`, `ActorWrapper`, `Executor` and `WakeupManager` record shapes, the
`DEFAULT_POOL` constant) are modelled from the specification's data model; each
such definition says so in its doc comment.

Time is discretised: the shutdown wait loop sleeps one second per iteration, so
an iteration index `i` stands for `i` seconds of elapsed wall-clock time, and
`await_shutdown`'s polling loop is modelled as a fold over the trace of
`SystemState` values it observes, one per poll.
-/

namespace Tyractorsaur

/-- Modelled from the spec: the mailbox's message channel is "bounded or
unbounded based on configured capacity" (crossbeam `unbounded()` versus
`bounded(n)`); we record only that shape, not the queue contents. -/
inductive Channel where
  | unbounded : Channel
  | bounded : Nat → Channel
deriving DecidableEq

/-- Modelled from the spec: a Mailbox is {message channel, stopped flag,
sleeping flag}.  The construction site in `ActorSystem::spawn` (which is under
verification) writes exactly these three fields. -/
structure Mailbox where
  is_stopped : Bool
  is_sleeping : Bool
  msg_in : Channel
deriving DecidableEq

/-- ActorAddress with the four components written by `ActorSystem::spawn`:
actor name, owning system name, owning pool name, location tag. -/
structure ActorAddress where
  actor : String
  system : String
  pool : String
  remote : String
deriving DecidableEq

/-- ActorConfig as consumed by `ActorSystem::spawn`: actor name, pool name,
mailbox size (0 = unbounded) and message throughput.  The restart policy is
irrelevant to the entry points verified here and is omitted. -/
structure ActorConfig where
  actor_name : String
  pool_name : String
  mailbox_size : Nat
  message_throughput : Nat
deriving DecidableEq

/-- Modelled from the spec: a thread-pool configuration is {thread count}. -/
structure ThreadPoolConfig where
  threads_in_pool : Nat
deriving DecidableEq

/-- Modelled from the spec: an ActorWrapper is a lightweight handle holding a
clone of the Mailbox producer side and the address.  (The source constructor
also receives a WakeupManager handle, which carries no observable state of its
own in this model.) -/
structure ActorWrapper where
  mailbox : Mailbox
  address : ActorAddress
deriving DecidableEq

/-- Modelled from the spec: an actor registered with the WakeupManager is in
exactly one of {asleep, runnable, running}. -/
inductive WakeState where
  | asleep : WakeState
  | runnable : WakeState
  | running : WakeState
deriving DecidableEq

/-- Modelled from the spec: SystemState is a registry of actor addresses plus
{stopping flag, stopped flag, forced-stop flag}; the live actor count is the
registry size.  The actor handles stored next to the addresses are type-erased
in the source and carry no information used by the verified entry points, so
the registry keeps only the address keys. -/
structure SystemState where
  actors : List ActorAddress
  is_stopping : Bool
  is_stopped : Bool
  is_force_stopped : Bool
deriving DecidableEq

/-- Modelled from the spec: `SystemState::add_actor` inserts the address into
the registry (spawn: count += 1). -/
def SystemState.add_actor (s : SystemState) (address : ActorAddress) : SystemState :=
  { s with actors := address :: s.actors }

/-- Modelled from the spec: the live actor count is the registry size. -/
def SystemState.get_actor_count (s : SystemState) : Nat :=
  s.actors.length

/-- Modelled from the spec: `SystemState::stop` sets the stopping flag. -/
def SystemState.stop (s : SystemState) : SystemState :=
  { s with is_stopping := true }

/-- Modelled from the spec: `SystemState::finalize_stop` ends the lifecycle
`Running → Stopping → {Stopped | ForcedStopped}` by setting the stopped flag
and recording whether the stop was forced. -/
def SystemState.finalize_stop (s : SystemState) (is_forced_stop : Bool) : SystemState :=
  { s with is_stopped := true, is_force_stopped := is_forced_stop }

/-- ActorSystem as in the source: its SystemState, the ThreadPoolManager's
pools, the WakeupManager's per-address wake-state registry, the system name and
the resolved thread-pool configuration map (`config.thread_pool.config`). -/
structure ActorSystem where
  state : SystemState
  pools : List (String × ThreadPoolConfig)
  wakeup : List (ActorAddress × WakeState)
  name : String
  thread_pool_config : List (String × ThreadPoolConfig)
deriving DecidableEq

/-- Context as constructed in `ActorSystem::spawn`: the owning system handle
and the freshly created actor's own wrapper handle. -/
structure Context where
  system : ActorSystem
  actor_ref : ActorWrapper
deriving DecidableEq

/-- Modelled from the spec: the Executor owns the actor's resolved config, its
Mailbox and the actor's wrapper handle; `Executor::new` in `spawn` receives
exactly these (plus the receiver side of the channel and a system back
reference, neither observable here). -/
structure Executor where
  actor_config : ActorConfig
  mailbox : Mailbox
  system_name : String
  actor_ref : ActorWrapper
deriving DecidableEq

/-- Modelled from the spec: the address under which the Executor is registered
with the WakeupManager is the actor's own address. -/
def Executor.get_address (e : Executor) : ActorAddress :=
  e.actor_ref.address

/-- The error taxonomy entry relevant to spawn: the spec's
`DuplicateActorError`. -/
inductive SpawnError where
  | DuplicateActorError : SpawnError
deriving DecidableEq

/-- Everything `ActorSystem::spawn` produces: the updated system, the returned
wrapper handle, the Executor it registered, the list of contexts with which the
factory's `new_actor` was invoked (in call order), and the constructed actor
instance. -/
structure SpawnResult (A : Type) where
  system : ActorSystem
  actor_ref : ActorWrapper
  executor : Executor
  factory_calls : List Context
  actor : A
deriving DecidableEq

/-- Translation of `ActorSystem::spawn` (actor_system.rs lines 95-137): choose
an unbounded channel when `mailbox_size == 0` and a bounded one of that
capacity otherwise; build the Mailbox with `is_stopped = false` and
`is_sleeping = true`; build the address from the config's actor name, the
system's name, the config's pool name and the literal "local"; build the
wrapper; invoke the factory once with a context holding the system and the
wrapper; build the Executor; register the address in SystemState and the
Executor (asleep) with the WakeupManager; return the wrapper. -/
def ActorSystem.spawn {A : Type} (sys : ActorSystem) (actor_props : Context → A)
    (actor_config : ActorConfig) : SpawnResult A :=
  let channel := if actor_config.mailbox_size = 0 then Channel.unbounded
                 else Channel.bounded actor_config.mailbox_size
  let mailbox : Mailbox :=
    { is_stopped := false, is_sleeping := true, msg_in := channel }
  let actor_address : ActorAddress :=
    { actor := actor_config.actor_name, system := sys.name,
      pool := actor_config.pool_name, remote := "local" }
  let actor_ref : ActorWrapper := { mailbox := mailbox, address := actor_address }
  let context : Context := { system := sys, actor_ref := actor_ref }
  let actor := actor_props context
  let actor_handler : Executor :=
    { actor_config := actor_config, mailbox := mailbox,
      system_name := sys.name, actor_ref := actor_ref }
  { system := { sys with
      state := sys.state.add_actor actor_address,
      wakeup := (actor_handler.get_address, WakeState.asleep) :: sys.wakeup },
    actor_ref := actor_ref,
    executor := actor_handler,
    factory_calls := [context],
    actor := actor }

/-- The observable outcome of a call to `ActorSystem::spawn` with room for the
spec's claimed failure mode.  The source signature returns `ActorWrapper<A>`
directly — it has no error path at all — so the body, translated from the
source, is `Except.ok` of the spawn result on every input. -/
def ActorSystem.spawn_checked {A : Type} (sys : ActorSystem) (actor_props : Context → A)
    (actor_config : ActorConfig) : Except SpawnError (SpawnResult A) :=
  Except.ok (sys.spawn actor_props actor_config)

set_option linter.unusedVariables false in
/-- Translation of `ActorSystem::stop` (lines 139-146): if the system is
already stopping, return at once; otherwise set the stopping flag and launch
the asynchronous shutdown wait.  The returned Bool records whether the
shutdown thread was launched by this call. -/
def ActorSystem.stop (sys : ActorSystem) (graceful_termination_timeout : Nat) :
    ActorSystem × Bool :=
  if sys.state.is_stopping then (sys, false)
  else ({ sys with state := sys.state.stop }, true)

/-- Translation of the wait loop in `ActorSystem::shutdown` (lines 148-159)
over discrete time: at iteration `i` (i seconds elapsed, one per 1-second
sleep), `count i` is the live actor count the loop observes.  If the count is
zero the loop exits gracefully; otherwise, if the elapsed time has reached the
timeout, it exits forced; otherwise it sleeps and re-checks.  The result is
the forced flag together with the iteration at which the loop decided.  `fuel`
bounds the recursion; every caller passes fuel with `timeout ≤ i + fuel`, which
makes the fuel-exhaustion branch unreachable (and its value agrees with the
elapsed-time check there anyway). -/
def shutdown_loop (count : Nat → Nat) (timeout : Nat) : Nat → Nat → Bool × Nat
  | i, fuel =>
    if count i = 0 then (false, i)
    else if timeout ≤ i then (true, i)
    else match fuel with
      | 0 => (true, i)
      | f + 1 => shutdown_loop count timeout (i + 1) f

/-- Translation of `ActorSystem::shutdown`: run the wait loop from elapsed
time 0, then `finalize_stop` with the forced flag it decided.  Returns the
final SystemState and the elapsed time (in seconds) at which the loop
decided. -/
def ActorSystem.shutdown (count : Nat → Nat) (timeout : Nat) (s : SystemState) :
    SystemState × Nat :=
  let r := shutdown_loop count timeout 0 timeout
  (s.finalize_stop r.1, r.2)

/-- Bool-to-i32 cast used by `await_shutdown` (`is_force_stopped() as i32`). -/
def as_i32 (b : Bool) : Int :=
  if b then 1 else 0

/-- Translation of `ActorSystem::await_shutdown` (lines 161-166) over the
trace of SystemState values its polling loop observes (one entry per 1-second
poll): keep polling while the stopped flag is unset; at the first observed
stopped state, return `is_force_stopped as i32`.  `none` means the trace ended
with the caller still blocked. -/
def await_shutdown : List SystemState → Option Int
  | [] => none
  | s :: rest =>
    if s.is_stopped then some (as_i32 s.is_force_stopped) else await_shutdown rest

/-- Modelled from the spec: the reserved pool name used when no matching pool
configuration exists.  (The `DEFAULT_POOL` constant lives in
`config/tyractorsaur_config.rs`, outside the verified core.) -/
def DEFAULT_POOL : String := "default"

/-- Modelled from the spec: `ThreadPoolManager::add_pool_with_config` creates
or replaces the named pool; observably through lookup, prepending the new
binding realises replacement. -/
def ActorSystem.add_pool_with_config (sys : ActorSystem) (name : String)
    (thread_pool_config : ThreadPoolConfig) : ActorSystem :=
  { sys with pools := (name, thread_pool_config) :: sys.pools }

/-- Translation of `ActorSystem::add_pool` (lines 56-65): fetch the reserved
default pool's configuration (the source `.unwrap()`s it — `none` models that
panic), then use the configuration registered under `name` if present and the
default one otherwise. -/
def ActorSystem.add_pool (sys : ActorSystem) (name : String) : Option ActorSystem :=
  match sys.thread_pool_config.lookup DEFAULT_POOL with
  | none => none
  | some default_config =>
      let config := (sys.thread_pool_config.lookup name).getD default_config
      some (sys.add_pool_with_config name config)

/-- A fresh SystemState as `SystemState::new` produces it: empty registry, all
flags down. -/
def fresh_state : SystemState :=
  { actors := [], is_stopping := false, is_stopped := false, is_force_stopped := false }

/-- Concrete address used to exhibit a system that already has a registration. -/
def dup_address : ActorAddress :=
  { actor := "a", system := "sys", pool := "default", remote := "local" }

/-- Concrete system whose registry already contains `dup_address`. -/
def dup_system : ActorSystem :=
  { state := { fresh_state with actors := [dup_address] },
    pools := [], wakeup := [], name := "sys", thread_pool_config := [] }

/-- Concrete config whose spawn address inside `dup_system` is `dup_address`. -/
def dup_config : ActorConfig :=
  { actor_name := "a", pool_name := "default", mailbox_size := 0,
    message_throughput := 1 }

/-- Concrete system used by the witnesses: fresh state, empty registries, a
two-entry thread-pool configuration map. -/
def witness_system : ActorSystem :=
  { state := fresh_state, pools := [], wakeup := [], name := "testsystem",
    thread_pool_config :=
      [(DEFAULT_POOL, { threads_in_pool := 1 }), ("fast", { threads_in_pool := 4 })] }

/-- Concrete config with an unbounded mailbox. -/
def cfg_unbounded : ActorConfig :=
  { actor_name := "u", pool_name := "default", mailbox_size := 0,
    message_throughput := 16 }

/-- Concrete config with a bounded mailbox of capacity 5. -/
def cfg_bounded : ActorConfig :=
  { actor_name := "b", pool_name := "default", mailbox_size := 5,
    message_throughput := 16 }

/-- Concrete SystemState observed while the system is still running: the
stopped flag is down. -/
def running_state : SystemState :=
  { actors := [dup_address], is_stopping := true, is_stopped := false,
    is_force_stopped := false }

/-- Unfolding equation of the wait loop at fuel 0: the count check decides,
and both remaining branches report a forced stop. -/
theorem shutdown_loop_zero (count : Nat → Nat) (timeout i : Nat) :
    shutdown_loop count timeout i 0 =
      if count i = 0 then (false, i)
      else if timeout ≤ i then (true, i)
      else (true, i) :=
  rfl

/-- Unfolding equation of the wait loop at positive fuel: check the count,
check the elapsed time against the timeout, otherwise sleep one second and
loop. -/
theorem shutdown_loop_succ (count : Nat → Nat) (timeout i f : Nat) :
    shutdown_loop count timeout i (f + 1) =
      if count i = 0 then (false, i)
      else if timeout ≤ i then (true, i)
      else shutdown_loop count timeout (i + 1) f :=
  rfl

/-- Invariant of the shutdown wait loop, for every starting elapsed time `i`
within the window and enough fuel: the loop reports a forced stop exactly when
the observed count stays nonzero at every observation through the timeout; a
forced decision happens at elapsed time `timeout` exactly; a graceful decision
happens at an observation with count zero, at or before the timeout. -/
theorem shutdown_loop_spec (count : Nat → Nat) (timeout : Nat) :
    ∀ fuel i, timeout ≤ i + fuel → i ≤ timeout →
      (((shutdown_loop count timeout i fuel).1 = true ↔
          ∀ j, i ≤ j → j ≤ timeout → count j ≠ 0) ∧
       ((shutdown_loop count timeout i fuel).1 = true →
          (shutdown_loop count timeout i fuel).2 = timeout) ∧
       ((shutdown_loop count timeout i fuel).1 = false →
          count (shutdown_loop count timeout i fuel).2 = 0 ∧
          i ≤ (shutdown_loop count timeout i fuel).2 ∧
          (shutdown_loop count timeout i fuel).2 ≤ timeout)) := by
  intro fuel
  induction fuel with
  | zero =>
    intro i hf hle
    have hit : i = timeout := by omega
    subst hit
    rw [shutdown_loop_zero]
    by_cases hc : count i = 0
    · rw [if_pos hc]
      refine ⟨?_, ?_, ?_⟩
      · constructor
        · intro h
          exact Bool.noConfusion h
        · intro h
          exact absurd hc (h i le_rfl le_rfl)
      · intro h
        exact Bool.noConfusion h
      · intro _
        exact ⟨hc, le_rfl, le_rfl⟩
    · rw [if_neg hc, if_pos le_rfl]
      refine ⟨?_, ?_, ?_⟩
      · constructor
        · intro _ j h1 h2
          have hji : j = i := by omega
          rw [hji]
          exact hc
        · intro _
          rfl
      · intro _
        rfl
      · intro h
        exact Bool.noConfusion h
  | succ f ih =>
    intro i hf hle
    rw [shutdown_loop_succ]
    by_cases hc : count i = 0
    · rw [if_pos hc]
      refine ⟨?_, ?_, ?_⟩
      · constructor
        · intro h
          exact Bool.noConfusion h
        · intro h
          exact absurd hc (h i le_rfl hle)
      · intro h
        exact Bool.noConfusion h
      · intro _
        exact ⟨hc, le_rfl, hle⟩
    · by_cases ht : timeout ≤ i
      · have hit : i = timeout := by omega
        rw [if_neg hc, if_pos ht]
        refine ⟨?_, ?_, ?_⟩
        · constructor
          · intro _ j h1 h2
            have hji : j = i := by omega
            rw [hji]
            exact hc
          · intro _
            rfl
        · intro _
          exact hit
        · intro h
          exact Bool.noConfusion h
      · obtain ⟨h1, h2, h3⟩ := ih (i + 1) (by omega) (by omega)
        rw [if_neg hc, if_neg ht]
        refine ⟨?_, h2, ?_⟩
        · constructor
          · intro htr j hij hjt
            rcases Nat.eq_or_lt_of_le hij with he | hl
            · rw [← he]
              exact hc
            · exact h1.mp htr j hl hjt
          · intro h
            exact h1.mpr (fun j hj1 hj2 => h j (by omega) hj2)
        · intro hfalse
          obtain ⟨c0, hge, hle2⟩ := h3 hfalse
          exact ⟨c0, by omega, hle2⟩

/-- Claim C3: for the shutdown sequence started by stop, the forced-stop flag
is set iff the live actor count never reached zero at any observation through
the timeout window; a forced outcome is decided exactly when the elapsed time
reaches the timeout, never before; a graceful outcome is decided at an
observation where the count is zero, at or before the timeout; and the
stopped flag is set either way. -/
theorem shutdown_forced_iff_not_drained (count : Nat → Nat) (timeout : Nat)
    (s : SystemState) :
    ((ActorSystem.shutdown count timeout s).1.is_force_stopped = true ↔
      ∀ j, j ≤ timeout → count j ≠ 0) ∧
    ((ActorSystem.shutdown count timeout s).1.is_force_stopped = true →
      (ActorSystem.shutdown count timeout s).2 = timeout) ∧
    ((ActorSystem.shutdown count timeout s).1.is_force_stopped = false →
      count (ActorSystem.shutdown count timeout s).2 = 0 ∧
      (ActorSystem.shutdown count timeout s).2 ≤ timeout) ∧
    (ActorSystem.shutdown count timeout s).1.is_stopped = true := by
  obtain ⟨h1, h2, h3⟩ := shutdown_loop_spec count timeout timeout 0 (by omega) (by omega)
  have hfst : (ActorSystem.shutdown count timeout s).1.is_force_stopped =
      (shutdown_loop count timeout 0 timeout).1 := rfl
  have hsnd : (ActorSystem.shutdown count timeout s).2 =
      (shutdown_loop count timeout 0 timeout).2 := rfl
  rw [hfst, hsnd]
  refine ⟨?_, h2, ?_, rfl⟩
  · constructor
    · intro h j hj
      exact h1.mp h j (Nat.zero_le j) hj
    · intro h
      exact h1.mpr (fun j _ hj => h j hj)
  · intro h
    obtain ⟨c0, _, hle2⟩ := h3 h
    exact ⟨c0, hle2⟩

/-- Witness for C3 at concrete inputs: with a count that never drains and
timeout 2, the outcome is forced and decided at elapsed time 2; with a count
that drains at time 3 and timeout 5, the outcome is decided at an observation
with count zero, at or before the timeout. -/
theorem shutdown_forced_witness :
    (ActorSystem.shutdown (fun _ => 1) 2 fresh_state).1.is_force_stopped = true ∧
    (ActorSystem.shutdown (fun _ => 1) 2 fresh_state).2 = 2 ∧
    ((fun j => 3 - j) (ActorSystem.shutdown (fun j => 3 - j) 5 fresh_state).2 = 0 ∧
      (ActorSystem.shutdown (fun j => 3 - j) 5 fresh_state).2 ≤ 5) :=
  ⟨(shutdown_forced_iff_not_drained (fun _ => 1) 2 fresh_state).1.mpr
      (fun _ _ => Nat.one_ne_zero),
   (shutdown_forced_iff_not_drained (fun _ => 1) 2 fresh_state).2.1
      ((shutdown_forced_iff_not_drained (fun _ => 1) 2 fresh_state).1.mpr
        (fun _ _ => Nat.one_ne_zero)),
   (shutdown_forced_iff_not_drained (fun j => 3 - j) 5 fresh_state).2.2.1 (by decide)⟩

/-- Claim C2: await_shutdown keeps blocking while every observed state has the
stopped flag unset; at the first observed stopped state — in particular the
one `finalize_stop` produces — it returns the forced flag cast to an i32,
1 when the shutdown was forced and 0 when it was graceful; and every value it
ever returns is 0 or 1, never anything else. -/
theorem await_shutdown_status :
    (∀ states : List SystemState, (∀ s ∈ states, s.is_stopped = false) →
      await_shutdown states = none) ∧
    (∀ (pre post : List SystemState) (s : SystemState) (forced : Bool),
      (∀ t ∈ pre, t.is_stopped = false) →
      await_shutdown (pre ++ (s.finalize_stop forced) :: post) =
        some (as_i32 forced)) ∧
    (∀ (states : List SystemState) (v : Int),
      await_shutdown states = some v → v = 0 ∨ v = 1) := by
  refine ⟨?_, ?_, ?_⟩
  · intro states
    induction states with
    | nil =>
      intro _
      rfl
    | cons s rest ih =>
      intro h
      have hs : s.is_stopped = false := h s (List.mem_cons_self s rest)
      simp [await_shutdown, hs]
      exact ih (fun t htm => h t (List.mem_cons_of_mem s htm))
  · intro pre post s forced
    induction pre with
    | nil =>
      intro _
      simp [await_shutdown, SystemState.finalize_stop]
    | cons t rest ih =>
      intro hpre
      have ht : t.is_stopped = false := hpre t (List.mem_cons_self t rest)
      simp only [List.cons_append]
      simp [await_shutdown, ht]
      exact ih (fun u hu => hpre u (List.mem_cons_of_mem t hu))
  · intro states
    induction states with
    | nil =>
      intro v h
      exact Option.noConfusion h
    | cons s rest ih =>
      intro v h
      cases hs : s.is_stopped with
      | false =>
        simp [await_shutdown, hs] at h
        exact ih v h
      | true =>
        simp [await_shutdown, hs] at h
        cases hb : s.is_force_stopped with
        | false =>
          left
          rw [← h]
          simp [as_i32, hb]
        | true =>
          right
          rw [← h]
          simp [as_i32, hb]

/-- Witness for C2 at concrete inputs: a trace of two non-stopped states keeps
the caller blocked; a trace whose second entry is a forced `finalize_stop`
state yields 1; and the returned value of a concrete trace is 0 or 1. -/
theorem await_shutdown_witness :
    await_shutdown [running_state, running_state] = none ∧
    await_shutdown ([running_state] ++ (fresh_state.finalize_stop true) :: []) =
      some 1 ∧
    ((1 : Int) = 0 ∨ (1 : Int) = 1) :=
  ⟨await_shutdown_status.1 [running_state, running_state] (by decide),
   await_shutdown_status.2.1 [running_state] [] fresh_state true (by decide),
   await_shutdown_status.2.2 [fresh_state.finalize_stop true] 1 (by decide)⟩

/-- Claim C8: every actor created by spawn has an address whose four components
are the actor name and pool name from its ActorConfig, the owning system's
name, and the location tag "local". -/
theorem spawn_address_components {A : Type} (sys : ActorSystem)
    (actor_props : Context → A) (actor_config : ActorConfig) :
    (sys.spawn actor_props actor_config).actor_ref.address =
      { actor := actor_config.actor_name, system := sys.name,
        pool := actor_config.pool_name, remote := "local" } :=
  rfl

/-- Claim C10: the mailbox handed to the wrapper returned by spawn starts with
its stopped flag false and its sleeping flag true. -/
theorem spawn_mailbox_initial_flags {A : Type} (sys : ActorSystem)
    (actor_props : Context → A) (actor_config : ActorConfig) :
    (sys.spawn actor_props actor_config).actor_ref.mailbox.is_stopped = false ∧
    (sys.spawn actor_props actor_config).actor_ref.mailbox.is_sleeping = true :=
  ⟨rfl, rfl⟩

/-- Claim C9: during a single spawn the factory's `new_actor` is invoked
exactly once, with a context holding the owning system handle and the newly
created actor's own wrapper handle. -/
theorem spawn_factory_called_once {A : Type} (sys : ActorSystem)
    (actor_props : Context → A) (actor_config : ActorConfig) :
    (sys.spawn actor_props actor_config).factory_calls =
      [{ system := sys, actor_ref := (sys.spawn actor_props actor_config).actor_ref }] ∧
    (sys.spawn actor_props actor_config).factory_calls.length = 1 :=
  ⟨rfl, rfl⟩

/-- Claim C6: every spawn registers the new actor's address in the SystemState
registry and registers its Executor with the WakeupManager in the asleep
state, the mailbox's sleeping flag being initially true, all present in the
result before the wrapper handle reaches the caller. -/
theorem spawn_registers_state_and_wakeup {A : Type} (sys : ActorSystem)
    (actor_props : Context → A) (actor_config : ActorConfig) :
    (sys.spawn actor_props actor_config).system.state.actors =
      (sys.spawn actor_props actor_config).actor_ref.address :: sys.state.actors ∧
    (sys.spawn actor_props actor_config).system.wakeup =
      ((sys.spawn actor_props actor_config).executor.get_address, WakeState.asleep)
        :: sys.wakeup ∧
    (sys.spawn actor_props actor_config).executor.get_address =
      (sys.spawn actor_props actor_config).actor_ref.address ∧
    (sys.spawn actor_props actor_config).actor_ref.mailbox.is_sleeping = true :=
  ⟨rfl, rfl, rfl, rfl⟩

/-- Claim C5: a mailbox size of 0 yields an unbounded channel; a positive
mailbox size n yields a bounded channel of capacity exactly n. -/
theorem spawn_mailbox_channel {A : Type} (sys : ActorSystem)
    (actor_props : Context → A) (actor_config : ActorConfig) :
    (actor_config.mailbox_size = 0 →
      (sys.spawn actor_props actor_config).actor_ref.mailbox.msg_in =
        Channel.unbounded) ∧
    (0 < actor_config.mailbox_size →
      (sys.spawn actor_props actor_config).actor_ref.mailbox.msg_in =
        Channel.bounded actor_config.mailbox_size) := by
  constructor
  · intro h
    simp [ActorSystem.spawn, h]
  · intro h
    simp [ActorSystem.spawn, Nat.pos_iff_ne_zero.mp h]

/-- Witness for C5 at concrete inputs: mailbox size 0 gives an unbounded
channel and mailbox size 5 gives a bounded channel of capacity 5. -/
theorem spawn_mailbox_channel_witness :
    (witness_system.spawn (fun _ => (0 : Nat)) cfg_unbounded).actor_ref.mailbox.msg_in =
      Channel.unbounded ∧
    (witness_system.spawn (fun _ => (0 : Nat)) cfg_bounded).actor_ref.mailbox.msg_in =
      Channel.bounded 5 :=
  ⟨(spawn_mailbox_channel witness_system (fun _ => (0 : Nat)) cfg_unbounded).1 rfl,
   (spawn_mailbox_channel witness_system (fun _ => (0 : Nat)) cfg_bounded).2 (by decide)⟩

/-- Counterexample to claim C1: `dup_address` is already registered in
`dup_system`, yet spawning an actor at that very address does not fail with
`DuplicateActorError` — `ActorSystem::spawn` has no error path and performs no
duplicate check. -/
theorem spawn_succeeds_on_duplicate_address :
    dup_address ∈ dup_system.state.actors ∧
    dup_system.spawn_checked (fun _ => (0 : Nat)) dup_config ≠
      Except.error SpawnError.DuplicateActorError := by
  constructor
  · simp [dup_system, fresh_state]
  · simp [ActorSystem.spawn_checked]

/-- Claim C1 as amended: every call to spawn succeeds and returns an
ActorWrapper handle, whether or not the address is already registered; the
address is inserted into the registry unconditionally and no
`DuplicateActorError` is ever produced. -/
theorem spawn_never_fails {A : Type} (sys : ActorSystem)
    (actor_props : Context → A) (actor_config : ActorConfig) :
    sys.spawn_checked actor_props actor_config =
      Except.ok (sys.spawn actor_props actor_config) ∧
    (sys.spawn actor_props actor_config).system.state.actors =
      { actor := actor_config.actor_name, system := sys.name,
        pool := actor_config.pool_name, remote := "local" } :: sys.state.actors :=
  ⟨rfl, rfl⟩

/-- Claim C4: stop is idempotent — when the system is already stopping, stop
returns the system unchanged without launching the shutdown wait; the first
call sets the stopping flag and launches the shutdown wait exactly once, so a
second call is a no-op. -/
theorem stop_idempotent (sys : ActorSystem) (t1 t2 : Nat) :
    (sys.state.is_stopping = true → sys.stop t1 = (sys, false)) ∧
    (sys.stop t1).1.state.is_stopping = true ∧
    (sys.stop t1).1.stop t2 = ((sys.stop t1).1, false) ∧
    (sys.state.is_stopping = false → (sys.stop t1).2 = true) := by
  cases h : sys.state.is_stopping with
  | false => simp [ActorSystem.stop, SystemState.stop, h]
  | true => simp [ActorSystem.stop, h]

/-- Witness for C4 at a concrete input: stopping a fresh system sets the
stopping flag and launches the shutdown wait, and a second stop call returns
the system unchanged without launching it again. -/
theorem stop_idempotent_witness :
    (witness_system.stop 5).1.state.is_stopping = true ∧
    (witness_system.stop 5).1.stop 7 = ((witness_system.stop 5).1, false) ∧
    (witness_system.stop 5).2 = true :=
  ⟨(stop_idempotent witness_system 5 7).2.1,
   (stop_idempotent witness_system 5 7).2.2.1,
   (stop_idempotent witness_system 5 7).2.2.2 rfl⟩

/-- Claim C7: when the resolved configuration map has an entry for the pool
name, add_pool creates the pool with that entry's configuration; otherwise it
creates it with the reserved default pool's configuration. -/
theorem add_pool_uses_config_or_default (sys : ActorSystem) (name : String)
    (default_config : ThreadPoolConfig)
    (hd : sys.thread_pool_config.lookup DEFAULT_POOL = some default_config) :
    (∀ c : ThreadPoolConfig, sys.thread_pool_config.lookup name = some c →
      ∃ sys2 : ActorSystem, sys.add_pool name = some sys2 ∧
        sys2.pools.lookup name = some c) ∧
    (sys.thread_pool_config.lookup name = none →
      ∃ sys2 : ActorSystem, sys.add_pool name = some sys2 ∧
        sys2.pools.lookup name = some default_config) := by
  constructor
  · intro c hc
    refine ⟨sys.add_pool_with_config name c, ?_, ?_⟩
    · simp [ActorSystem.add_pool, hd, hc]
    · simp [ActorSystem.add_pool_with_config, List.lookup]
  · intro hc
    refine ⟨sys.add_pool_with_config name default_config, ?_, ?_⟩
    · simp [ActorSystem.add_pool, hd, hc]
    · simp [ActorSystem.add_pool_with_config, List.lookup]

/-- Witness for C7 at concrete inputs: the name "fast" is present in the
configuration map and yields its own entry; the name "other" is absent and
yields the default pool's entry. -/
theorem add_pool_witness :
    (∃ sys2 : ActorSystem, witness_system.add_pool "fast" = some sys2 ∧
      sys2.pools.lookup "fast" = some { threads_in_pool := 4 }) ∧
    (∃ sys2 : ActorSystem, witness_system.add_pool "other" = some sys2 ∧
      sys2.pools.lookup "other" = some { threads_in_pool := 1 }) :=
  ⟨(add_pool_uses_config_or_default witness_system "fast"
      { threads_in_pool := 1 } (by decide)).1 { threads_in_pool := 4 } (by decide),
   (add_pool_uses_config_or_default witness_system "other"
      { threads_in_pool := 1 } (by decide)).2 (by decide)⟩

end Tyractorsaur
